import Mathlib

/-!
# http-echo: a shallow embedding of `main.go`

The program is a small HTTP server with a root handler (`httpEcho`), a health
handler (`httpHealth`) and a process entry point (`main`) that ends in a
signal loop.

Modelling choices.

* A Go `string` is a Lean `String`; a Go `error` is a value carrying the text
  that `err.Error()` returns, which is all that `%s` renders of it.
* A Go `map[string]T` is an association list; indexing a missing key yields
  the zero value of `T`, and a nil map behaves as the empty list.
* A Go `interface{}` taken from a decoded agent response is an `Iface`; the
  type assertion `x.(string)` succeeds on a string and panics on anything else.
* `strings.Split` is modelled on characters for a separator of one character,
  which is how the handler calls it.
* `main` is run on the command line after the program name. `flag.Parse()` is
  the standard `flag` package on the three flags the program defines; when it
  rejects the command line it ends the process itself. The signals the process
  receives are a finite list, consumed one per iteration of the signal loop.
* A handler is run against an environment `Env` that fixes what each outbound
  library call returns.  Running it yields the ordered list of its observable
  effects (header writes, outbound calls, body writes) and whether it returned
  or panicked.
-/

namespace HttpEcho

/-! ## Go values -/

/-- A Go `error`: the text returned by its `Error()` method. -/
structure GoError where
  Error : String
  deriving DecidableEq, Repr

/-- A Go `interface{}` as produced by decoding an agent response. `number`,
`bool` and `composite` stand for the dynamic types other than `string`. -/
inductive Iface where
  | nil
  | str (s : String)
  | bool (b : Bool)
  | number (n : Int)
  | composite
  deriving DecidableEq, Repr

/-- The zero value of a Go type, returned when a map is indexed at a missing key. -/
class GoZero (α : Type) where
  zero : α

/-- A Go `map[string]α`; the nil map is `[]`. -/
abbrev GoMap (α : Type) := List (String × α)

instance : GoZero String := ⟨""⟩
instance : GoZero Iface := ⟨Iface.nil⟩
instance {α : Type} : GoZero (GoMap α) := ⟨[]⟩

/-- The map index expression `m[k]`. -/
def GoMap.index {α : Type} [GoZero α] (m : GoMap α) (k : String) : α :=
  match m.lookup k with
  | some a => a
  | none => GoZero.zero

/-- The part of `nomadapi.AgentSelf` the program reads: `Config` is a
`map[string]interface{}` and `Stats` a `map[string]map[string]string`. -/
structure AgentSelf where
  Config : GoMap Iface
  Stats : GoMap (GoMap String)
  deriving DecidableEq, Repr

/-! ## Effects and runs -/

/-- A runtime panic of the handler. -/
inductive Fault where
  | interfaceConversion (dynamic : Iface)
  | indexOutOfRange
  deriving DecidableEq, Repr

/-- The observable steps of a handler, in program order. -/
inductive Effect where
  | headerSet (key value : String)
  | metadataZone
  | consulNewClient
  | consulAgentSelf
  | nomadNewClient
  | nomadAgentSelf
  | write (bytes : String)
  deriving DecidableEq, Repr

/-- The outcome of running a piece of handler code: the effects performed so
far, and either a value or the panic that stopped it. -/
structure Run (α : Type) where
  trace : List Effect
  result : Except Fault α

/-- Return a value with no effect. -/
def Run.pure {α : Type} (a : α) : Run α := ⟨[], .ok a⟩

/-- Sequencing: a panic stops the run and keeps the effects performed before it. -/
def Run.bind {α β : Type} (m : Run α) (f : α → Run β) : Run β :=
  match m.result with
  | .error p => ⟨m.trace, .error p⟩
  | .ok a => ⟨m.trace ++ (f a).trace, (f a).result⟩

instance : Monad Run where
  pure := Run.pure
  bind := Run.bind

/-- Perform one effect. -/
def emit (e : Effect) : Run Unit := ⟨[e], .ok ()⟩

/-- A runtime panic. -/
def goPanic {α : Type} (p : Fault) : Run α := ⟨[], .error p⟩

/-- The type assertion `x.(string)`. -/
def assertString : Iface → Run String
  | .str s => Run.pure s
  | x => goPanic (.interfaceConversion x)

/-- The call `w.Header().Set(key, value)`. -/
def headerSet (key value : String) : Run Unit := emit (.headerSet key value)

/-- The call `fmt.Fprintln(w, s)`: writes `s` and a newline. -/
def Fprintln (s : String) : Run Unit := emit (.write (s ++ "\n"))

/-- The call `fmt.Fprintf(w, ...)` once the format has been filled in: writes
the text as it is. -/
def Fprintf (s : String) : Run Unit := emit (.write s)

/-- The body writes of a trace, in order. -/
def writes : List Effect → List String
  | [] => []
  | .write s :: es => s :: writes es
  | _ :: es => writes es

/-- The response body: the concatenation of the body writes. -/
def body (es : List Effect) : String := String.join (writes es)

/-- The header writes of a trace, in order. -/
def headers : List Effect → List (String × String)
  | [] => []
  | .headerSet k v :: es => (k, v) :: headers es
  | _ :: es => headers es

/-- Whether an effect is an outbound call to a collaborator. -/
def Effect.isLookup : Effect → Bool
  | .metadataZone => true
  | .consulNewClient => true
  | .consulAgentSelf => true
  | .nomadNewClient => true
  | .nomadAgentSelf => true
  | _ => false

/-! ## The environment -/

/-- The part of an `http.Request` that identifies it; neither handler reads it. -/
structure Request where
  Method : String
  Path : String
  deriving DecidableEq, Repr

/-- What each outbound library call returns during one request. -/
structure Env where
  /-- Result of `metadata.Zone()`. -/
  metadataZone : Except GoError String
  /-- Result of `consulapi.NewClient(consulapi.DefaultConfig())`. -/
  consulNewClient : Except GoError Unit
  /-- Result of `c.Agent().Self()` on the consul client. -/
  consulAgentSelf : Except GoError (GoMap (GoMap Iface))
  /-- Result of `nomadapi.NewClient(nomadapi.DefaultConfig())`. -/
  nomadNewClient : Except GoError Unit
  /-- Result of `c.Agent().Self()` on the nomad client. -/
  nomadAgentSelf : Except GoError AgentSelf

/-! ## `strings.Split` with a one-character separator -/

/-- The pieces of `s` between occurrences of `sep`, on characters. -/
def splitChars (sep : Char) : List Char → List (List Char)
  | [] => [[]]
  | c :: cs =>
    if c = sep then [] :: splitChars sep cs
    else
      match splitChars sep cs with
      | [] => [[c]]
      | p :: ps => (c :: p) :: ps

/-- The call `strings.Split(s, sep)` for a separator of one character. -/
def stringsSplit (s : String) (sep : Char) : List String :=
  (splitChars sep s.data).map String.mk

/-- The index expression `xs[len(xs)-1]`, which panics on an empty slice. -/
def indexLast (xs : List String) : Run String :=
  match xs.getLast? with
  | some x => Run.pure x
  | none => goPanic .indexOutOfRange

/-! ## The program -/

/-- The table `pugs`. -/
def pugs : GoMap String :=
  [ ("a", "https://storage.googleapis.com/radek-devfest-2017/red-pug.jpg"),
    ("b", "https://storage.googleapis.com/radek-devfest-2017/blue-pug.jpg"),
    ("c", "https://storage.googleapis.com/radek-devfest-2017/green-pug.jpg") ]

/-- The function `getZone`. -/
def getZone (env : Env) : Run (Except GoError String) := do
  emit .metadataZone
  pure env.metadataZone

/-- The function `getConsulMemberInfo`. -/
def getConsulMemberInfo (env : Env) : Run (Except GoError (GoMap Iface)) := do
  emit .consulNewClient
  match env.consulNewClient with
  | .error err => pure (.error err)
  | .ok _ =>
    emit .consulAgentSelf
    match env.consulAgentSelf with
    | .error err => pure (.error err)
    | .ok self => pure (.ok (self.index "Member"))

/-- The function `getNomadInfo`. -/
def getNomadInfo (env : Env) : Run (Except GoError AgentSelf) := do
  emit .nomadNewClient
  match env.nomadNewClient with
  | .error err => pure (.error err)
  | .ok _ =>
    emit .nomadAgentSelf
    match env.nomadAgentSelf with
    | .error err => pure (.error err)
    | .ok self => pure (.ok self)

/-- The text `fmt.Sprintf("<center><img src=\"%s\"></center>", url)`. -/
def imageFragment (url : String) : String :=
  "<center><img src=\"" ++ url ++ "\"></center>"

/-- The text of the format
`"<center>Served from unknown node (%s)</center>"` filled with an error. -/
def unknownNodeFragment (err : GoError) : String :=
  "<center>Served from unknown node (" ++ err.Error ++ ")</center>"

/-- The text of the format
`"<br><center>Served from <strong>%s</strong> IP: %s (Zone: %s, DC: %s, region: %s)</center>"`
filled with its five arguments. -/
def finalFragment (nodeId ip zone dc region : String) : String :=
  "<br><center>Served from <strong>" ++ nodeId ++ "</strong> IP: " ++ ip ++
    " (Zone: " ++ zone ++ ", DC: " ++ dc ++ ", region: " ++ region ++ ")</center>"

/-- The handler returned by `httpEcho(v)`, serving request `r` in environment `env`. -/
def httpEcho (v : String) (r : Request) (env : Env) : Run Unit := do
  headerSet "Content-Type" "text/html"
  let zoneRes ← getZone env
  let (zone, zoneLetter) ←
    (match zoneRes with
     | .error _ => pure ("unknown", "")
     | .ok zone => do
       let zoneParts := stringsSplit zone '-'
       let zoneLetter ← indexLast zoneParts
       pure (zone, zoneLetter) : Run (String × String))
  Fprintln (imageFragment (pugs.index zoneLetter))
  -- Consul
  let consulRes ← getConsulMemberInfo env
  let ip ←
    (match consulRes with
     | .error err => pure ("unknown / " ++ err.Error)
     | .ok consul => assertString (consul.index "Addr") : Run String)
  -- Nomad
  let nomadRes ← getNomadInfo env
  match nomadRes with
  | .error err => Fprintf (unknownNodeFragment err)
  | .ok nomad =>
    let nodeId := (nomad.Stats.index "client").index "node_id"
    let cfg := nomad.Config
    let dc ← assertString (cfg.index "Datacenter")
    let region ← assertString (cfg.index "Region")
    Fprintf (finalFragment nodeId ip zone dc region)

/-- The handler returned by `httpHealth()`, serving request `r` in environment `env`. -/
def httpHealth (r : Request) (env : Env) : Run Unit := do
  Fprintln "\x7b\"status\":\"ok\"\x7d"

/-! ## The process entry point -/

/-- An operating-system signal, by number (`syscall.Signal`). -/
abbrev Signal := Nat

/-- The constant `syscall.SIGINT`. -/
def SIGINT : Signal := 2

/-- The flag variables `listenFlag`, `textFlag`, `versionFlag` and the
positional arguments `flag.Args()`. -/
structure Flags where
  listenFlag : String
  textFlag : String
  versionFlag : Bool
  args : List String
  deriving DecidableEq, Repr

/-- The flag variables as declared: `":5678"`, `""` and `false`. -/
def defaultFlags : Flags := ⟨":5678", "", false, []⟩

/-- The ways `flag.Parse()` rejects a command line. -/
inductive FlagError where
  | badSyntax (arg : String)
  | help
  | notDefined (name : String)
  | invalidBool (value name : String)
  | needsArgument (name : String)
  deriving DecidableEq, Repr

/-- The function `strconv.ParseBool`, which the `flag` package applies to the
value of a boolean flag. -/
def parseBool (s : String) : Option Bool :=
  if s = "1" ∨ s = "t" ∨ s = "T" ∨ s = "TRUE" ∨ s = "true" ∨ s = "True" then some true
  else if s = "0" ∨ s = "f" ∨ s = "F" ∨ s = "FALSE" ∨ s = "false" ∨ s = "False" then
    some false
  else none

/-- Cut a flag name at its first `=`: the part before it, and the part after it
when there is one. -/
def cutAtEq : List Char → List Char × Option (List Char)
  | [] => ([], none)
  | c :: cs =>
    if c = '=' then ([], some cs)
    else ((c :: (cutAtEq cs).1), (cutAtEq cs).2)

/-- The loop of `flag.Parse()` over the remaining arguments, for the flag set
of this program: the string flags `listen` and `text` and the boolean flag
`version`. An argument that is not a flag, or the terminator `--`, ends the
parsing and leaves the rest as positional arguments. -/
def flagParseLoop : Flags → List String → Except FlagError Flags
  | fl, [] => .ok { fl with args := [] }
  | fl, s :: rest =>
    match s.data with
    | '-' :: c :: cs =>
      if c = '-' ∧ cs = [] then .ok { fl with args := rest }
      else
        match (if c = '-' then cs else c :: cs) with
        | [] => .error (.badSyntax s)
        | n0 :: ns =>
          if n0 = '-' ∨ n0 = '=' then .error (.badSyntax s)
          else
            let name : String := ⟨n0 :: (cutAtEq ns).1⟩
            let value : Option (List Char) := (cutAtEq ns).2
            if name = "version" then
              match value with
              | some v =>
                match parseBool ⟨v⟩ with
                | some b => flagParseLoop { fl with versionFlag := b } rest
                | none => .error (.invalidBool ⟨v⟩ name)
              | none => flagParseLoop { fl with versionFlag := true } rest
            else if name = "listen" then
              match value, rest with
              | some v, rest1 => flagParseLoop { fl with listenFlag := ⟨v⟩ } rest1
              | none, v :: rest2 => flagParseLoop { fl with listenFlag := v } rest2
              | none, [] => .error (.needsArgument name)
            else if name = "text" then
              match value, rest with
              | some v, rest1 => flagParseLoop { fl with textFlag := ⟨v⟩ } rest1
              | none, v :: rest2 => flagParseLoop { fl with textFlag := v } rest2
              | none, [] => .error (.needsArgument name)
            else if name = "help" ∨ name = "h" then .error .help
            else .error (.notDefined name)
    | _ => .ok { fl with args := s :: rest }

/-- The call `flag.Parse()` on the command line `argv` (without the program
name), up to the point where it either returns or ends the process. -/
def flagParse (argv : List String) : Except FlagError Flags :=
  flagParseLoop defaultFlags argv

/-- A handler expression passed to `mux.HandleFunc`. -/
inductive HandlerExpr where
  | httpEcho (v : String)
  | httpHealth
  | withAppHeaders (h : HandlerExpr)
  | httpLog (h : HandlerExpr)
  deriving DecidableEq, Repr

/-- The observable steps of `main`, in program order. -/
inductive MainEffect where
  | flagError (e : FlagError)
  | stderrLine (s : String)
  | newServeMux
  | handleFunc (pattern : String) (h : HandlerExpr)
  | newServer (addr : String)
  | goServerStart
  | logPrintf (msg : String)
  | signalNotify
  | serverStop
  deriving DecidableEq, Repr

/-- Whether the process is still running or has called `os.Exit(code)`. -/
inductive Status where
  | running
  | exited (code : Nat)
  deriving DecidableEq, Repr

/-- The process: what it has done so far and whether it still runs. -/
structure Proc where
  trace : List MainEffect
  status : Status
  deriving DecidableEq, Repr

/-- What `main` takes from outside this file: the constant `humanVersion`,
the result of `NewServer(addr, mux)`, the text `%v` prints for a signal, and
the exit code of the `flag` package on `-h` or `-help` (0 in current releases
of the library, 2 in old ones). -/
structure MainEnv where
  humanVersion : String
  newServer : String → Except GoError Unit
  signalString : Signal → String
  helpExitCode : Nat

/-- One iteration of the `for { select { case s := <-signalCh: ... } }` loop
on receiving signal `s`. An exited process receives nothing. -/
def signalStep (menv : MainEnv) (p : Proc) (s : Signal) : Proc :=
  match p.status with
  | .exited _ => p
  | .running =>
    if s = SIGINT then
      ⟨p.trace ++ [.logPrintf "[INFO] Received interrupt", .serverStop], .exited 2⟩
    else
      ⟨p.trace ++ [.logPrintf ("[ERR] Unknown signal " ++ menv.signalString s)], .running⟩

/-- The signal loop over the signals received so far. -/
def signalLoop (menv : MainEnv) (p : Proc) (signals : List Signal) : Proc :=
  signals.foldl (signalStep menv) p

/-- The function `main` on the command line `argv`, with the signals
delivered to the process so far. When `flag.Parse()` rejects the command line
the `flag` package reports the error with the usage text and exits. -/
def main (argv : List String) (menv : MainEnv) (signals : List Signal) : Proc :=
  match flagParse argv with
  | .error .help => ⟨[.flagError .help], .exited menv.helpExitCode⟩
  | .error e => ⟨[.flagError e], .exited 2⟩
  | .ok flags =>
    -- Asking for the version?
    if flags.versionFlag then
      ⟨[.stderrLine menv.humanVersion], .exited 0⟩
    -- Validation
    else if flags.textFlag = "" then
      ⟨[.stderrLine "Missing -text option!"], .exited 127⟩
    else if flags.args.length > 0 then
      ⟨[.stderrLine "Too many arguments!"], .exited 127⟩
    else
      let setup : List MainEffect :=
        [ .newServeMux,
          .handleFunc "/" (.httpLog (.withAppHeaders (.httpEcho flags.textFlag))),
          .handleFunc "/health" (.withAppHeaders .httpHealth),
          .newServer flags.listenFlag ]
      match menv.newServer flags.listenFlag with
      | .error err =>
        ⟨setup ++ [.logPrintf ("[ERR] Error starting server: " ++ err.Error)], .exited 127⟩
      | .ok _ =>
        signalLoop menv
          ⟨setup ++ [.goServerStart,
                     .logPrintf ("Server is listening on " ++ flags.listenFlag ++ "\n"),
                     .signalNotify], .running⟩
          signals

/-- Whether a step of `main` constructs or starts the server. -/
def MainEffect.isServer : MainEffect → Bool
  | .newServer _ => true
  | .goServerStart => true
  | _ => false

/-! ## The specification's words -/

/-- The segment of `z` after its last `-`, the whole of `z` when it has none:
the longest end of `z` without a `-`. -/
def afterLastDashSpec (z : String) : String :=
  ⟨(z.data.reverse.takeWhile (fun c => c != '-')).reverse⟩

/-- The zone-suffix code of a zone lookup outcome: the segment after the last
`-` on success, the empty code on failure. -/
def zoneSuffixSpec : Except GoError String → String
  | .ok z => afterLastDashSpec z
  | .error _ => ""

/-- The zone text of a zone lookup outcome: the zone on success, the literal
`unknown` on failure. -/
def zoneTextSpec : Except GoError String → String
  | .ok z => z
  | .error _ => "unknown"


/-- The image URL the specification assigns to a zone-suffix code: red for
`"a"`, blue for `"b"`, green for `"c"`, and the empty string otherwise. -/
def pugURLSpec (code : String) : String :=
  if code = "a" then "https://storage.googleapis.com/radek-devfest-2017/red-pug.jpg"
  else if code = "b" then "https://storage.googleapis.com/radek-devfest-2017/blue-pug.jpg"
  else if code = "c" then "https://storage.googleapis.com/radek-devfest-2017/green-pug.jpg"
  else ""

/-! ## Sample inputs -/

/-- A request for the root page. -/
def sampleRequest : Request := ⟨"GET", "/"⟩

/-- Every collaborator is down. -/
def envAllFail : Env :=
  { metadataZone := .error ⟨"metadata: not on GCE"⟩,
    consulNewClient := .ok (),
    consulAgentSelf := .error ⟨"connection refused"⟩,
    nomadNewClient := .ok (),
    nomadAgentSelf := .error ⟨"nomad down"⟩ }

/-- Every collaborator answers with a well-formed response. -/
def envAllOk : Env :=
  { metadataZone := .ok "us-central1-a",
    consulNewClient := .ok (),
    consulAgentSelf := .ok [("Member", [("Addr", .str "10.0.0.1")])],
    nomadNewClient := .ok (),
    nomadAgentSelf := .ok
      { Config := [("Datacenter", .str "dc1"), ("Region", .str "global")],
        Stats := [("client", [("node_id", "n1")])] } }

/-- The consul agent answers without a `"Member"` entry; nomad is down. -/
def envNoMember : Env :=
  { envAllFail with consulAgentSelf := .ok [] }

/-- The consul agent answers with a numeric `"Addr"`. -/
def envBadAddr : Env :=
  { envAllOk with consulAgentSelf := .ok [("Member", [("Addr", .number 167772161)])] }

/-- Only nomad is down. -/
def envNomadDown : Env :=
  { envAllOk with nomadAgentSelf := .error ⟨"nomad down"⟩ }

/-- The consul agent is down, nomad answers. -/
def envConsulDown : Env :=
  { envAllOk with consulAgentSelf := .error ⟨"connection refused"⟩ }

/-- Nomad answers with a numeric `"Region"`. -/
def envBadRegion : Env :=
  { envAllOk with
    nomadAgentSelf := .ok
      { Config := [("Datacenter", .str "dc1"), ("Region", .number 7)],
        Stats := [("client", [("node_id", "n1")])] } }

/-- Nomad answers without client statistics. -/
def envNoStats : Env :=
  { envAllOk with
    nomadAgentSelf := .ok
      { Config := [("Datacenter", .str "dc1"), ("Region", .str "global")],
        Stats := [] } }

/-- A sample surrounding for `main`: a version text, a server that binds, and
names for the signals. -/
def sampleMainEnv : MainEnv :=
  { humanVersion := "http-echo v0.0.0",
    newServer := fun _ => .ok (),
    signalString := fun s => if s = 15 then "terminated" else "signal",
    helpExitCode := 0 }

/-! ## Lemmas on `strings.Split` and the table -/

theorem splitChars_ne_nil (sep : Char) (l : List Char) : splitChars sep l ≠ [] := by
  cases l with
  | nil => simp [splitChars]
  | cons c cs =>
    unfold splitChars
    split
    · simp
    · split <;> simp

theorem splitChars_of_not_mem (sep : Char) (l : List Char) (h : sep ∉ l) :
    splitChars sep l = [l] := by
  induction l with
  | nil => rfl
  | cons c cs ih =>
    have hc : c ≠ sep := fun e => h (by simp [e])
    have hcs : sep ∉ cs := fun m => h (List.mem_cons_of_mem _ m)
    simp [splitChars, hc, ih hcs]

theorem splitChars_append_sep (sep : Char) (pre suf : List Char) :
    splitChars sep (pre ++ sep :: suf) = splitChars sep pre ++ splitChars sep suf := by
  induction pre with
  | nil => simp [splitChars]
  | cons c cs ih =>
    have hne := splitChars_ne_nil sep cs
    rw [List.cons_append, splitChars, splitChars, ih]
    by_cases hc : c = sep
    · simp [hc]
    · simp only [hc, if_false]
      revert hne
      cases splitChars sep cs with
      | nil => intro hne; exact absurd rfl hne
      | cons p ps => intro _; rfl

theorem indexLast_stringsSplit (z : String) (sep : Char) :
    indexLast (stringsSplit z sep) = Run.pure ((stringsSplit z sep).getLastD "") := by
  have hne : stringsSplit z sep ≠ [] := by
    simp [stringsSplit, splitChars_ne_nil]
  unfold indexLast
  revert hne
  cases h : (stringsSplit z sep).getLast? with
  | none => intro hne; exact absurd (List.getLast?_eq_none_iff.mp h) hne
  | some x => intro _; simp [List.getLastD_eq_getLast?, h]

theorem exists_last_sep (sep : Char) (l : List Char) :
    sep ∉ l ∨ ∃ pre suf, l = pre ++ sep :: suf ∧ sep ∉ suf := by
  induction l with
  | nil => exact Or.inl (by simp)
  | cons c cs ih =>
    rcases ih with h | ⟨pre, suf, hl, hs⟩
    · by_cases hc : c = sep
      · exact Or.inr ⟨[], cs, by simp [hc], h⟩
      · exact Or.inl (by simp [h, Ne.symm hc])
    · exact Or.inr ⟨c :: pre, suf, by simp [hl], hs⟩

theorem afterLast_of_not_mem (l : List Char) (h : '-' ∉ l) :
    (l.reverse.takeWhile (fun c => c != '-')).reverse = l := by
  have hall : ∀ a ∈ l.reverse, (fun c => c != '-') a = true := by
    intro a ha
    have : a ≠ '-' := fun e => h (by simpa [e] using ha)
    simpa using this
  rw [List.takeWhile_eq_self_iff.mpr hall, List.reverse_reverse]

theorem afterLast_append (pre suf : List Char) (h : '-' ∉ suf) :
    ((pre ++ '-' :: suf).reverse.takeWhile (fun c => c != '-')).reverse = suf := by
  have hall : ∀ a ∈ suf.reverse, (fun c => c != '-') a = true := by
    intro a ha
    have : a ≠ '-' := fun e => h (by simpa [e] using ha)
    simpa using this
  have hrev : (pre ++ '-' :: suf).reverse = suf.reverse ++ '-' :: pre.reverse := by simp
  rw [hrev, List.takeWhile_append_of_pos hall]
  simp

theorem getLast_stringsSplit_dash (z : String) :
    (stringsSplit z '-').getLast?.getD "" = afterLastDashSpec z := by
  unfold afterLastDashSpec
  rcases exists_last_sep '-' z.data with h | ⟨pre, suf, hl, hs⟩
  · simp [stringsSplit, splitChars_of_not_mem '-' z.data h, afterLast_of_not_mem z.data h]
  · rw [hl, afterLast_append pre suf hs]
    simp [stringsSplit, hl, splitChars_append_sep, splitChars_of_not_mem '-' suf hs]


theorem pugs_index (s : String) : pugs.index s = pugURLSpec s := by
  unfold pugURLSpec
  by_cases ha : s = "a"
  · subst ha; rfl
  by_cases hb : s = "b"
  · subst hb; rfl
  by_cases hc : s = "c"
  · subst hc; rfl
  have ha1 : (s == "a") = false := by simpa using ha
  have hb1 : (s == "b") = false := by simpa using hb
  have hc1 : (s == "c") = false := by simpa using hc
  simp [pugs, GoMap.index, List.lookup, ha, hb, hc, ha1, hb1, hc1, GoZero.zero]

theorem assertString_of_not_str (x : Iface) (h : ∀ s, x ≠ .str s) :
    assertString x = goPanic (.interfaceConversion x) := by
  cases x with
  | str s => exact absurd rfl (h s)
  | _ => rfl

theorem assertString_str (s : String) : assertString (.str s) = Run.pure s := rfl

theorem assertString_cases (x : Iface) :
    (∃ s, x = .str s) ∨ assertString x = goPanic (.interfaceConversion x) := by
  cases x with
  | str s => exact Or.inl ⟨s, rfl⟩
  | _ => exact Or.inr rfl

/-! ## The root handler -/

/-- C1. For every outcome of the lookups, the first body write of `httpEcho`
is the line `<center><img src="U"></center>` (written by `Fprintln`, hence
closed by a newline), where `U` is the empty string when the zone lookup
fails, the table entry for the whole zone when the zone has no `-`, and the
table entry for the text after the last `-` otherwise; the table entry is the
red, blue or green URL for `a`, `b`, `c` and empty for anything else. The
fourth part says that these three cases cover every outcome of the zone
lookup, the fifth states the three cases at once, and the last spells the
line out for the codes `a`, `b`, `c` and for any other code. -/
theorem image_fragment_first (v : String) (r : Request) (env : Env) :
    (∀ e, (getZone env).result = .ok (.error e) →
      (writes (httpEcho v r env).trace).head? = some "<center><img src=\"\"></center>\n") ∧
    (∀ z, (getZone env).result = .ok (.ok z) → '-' ∉ z.data →
      (writes (httpEcho v r env).trace).head? =
        some ("<center><img src=\"" ++ pugURLSpec z ++ "\"></center>" ++ "\n")) ∧
    (∀ pre suf, (getZone env).result = .ok (.ok (pre ++ "-" ++ suf)) → '-' ∉ suf.data →
      (writes (httpEcho v r env).trace).head? =
        some ("<center><img src=\"" ++ pugURLSpec suf ++ "\"></center>" ++ "\n")) ∧
    ((∃ e, (getZone env).result = .ok (.error e)) ∨
      (∃ z, (getZone env).result = .ok (.ok z) ∧ '-' ∉ z.data) ∨
      (∃ pre suf, (getZone env).result = .ok (.ok (pre ++ "-" ++ suf)) ∧ '-' ∉ suf.data)) ∧
    (∀ zr, (getZone env).result = .ok zr →
      (writes (httpEcho v r env).trace).head? =
        some ("<center><img src=\"" ++ pugURLSpec (zoneSuffixSpec zr) ++ "\"></center>" ++
          "\n")) ∧
    (∀ zr, (getZone env).result = .ok zr →
      (zoneSuffixSpec zr = "a" → (writes (httpEcho v r env).trace).head? = some
        "<center><img src=\"https://storage.googleapis.com/radek-devfest-2017/red-pug.jpg\"></center>\n") ∧
      (zoneSuffixSpec zr = "b" → (writes (httpEcho v r env).trace).head? = some
        "<center><img src=\"https://storage.googleapis.com/radek-devfest-2017/blue-pug.jpg\"></center>\n") ∧
      (zoneSuffixSpec zr = "c" → (writes (httpEcho v r env).trace).head? = some
        "<center><img src=\"https://storage.googleapis.com/radek-devfest-2017/green-pug.jpg\"></center>\n") ∧
      (zoneSuffixSpec zr ≠ "a" → zoneSuffixSpec zr ≠ "b" → zoneSuffixSpec zr ≠ "c" →
        (writes (httpEcho v r env).trace).head? = some "<center><img src=\"\"></center>\n")) := by
  obtain ⟨mz, cn, cs, nn, ns⟩ := env
  have key : ∀ zr, (getZone ⟨mz, cn, cs, nn, ns⟩).result = .ok zr →
      (writes (httpEcho v r ⟨mz, cn, cs, nn, ns⟩).trace).head? =
        some ("<center><img src=\"" ++ pugURLSpec (zoneSuffixSpec zr) ++ "\"></center>" ++
          "\n") := by
    intro zr hz
    simp [getZone, bind, pure, Run.bind, Run.pure, emit] at hz
    subst hz
    cases mz <;>
      simp [httpEcho, getZone, bind, pure, Run.bind, Run.pure, emit, headerSet, Fprintln,
        writes, pugs_index, indexLast_stringsSplit, getLast_stringsSplit_dash, imageFragment,
        zoneSuffixSpec]
  refine ⟨?_, ?_, ?_, ?_, key, ?_⟩
  · intro e he
    rw [key _ he]
    rfl
  · intro z hz hmem
    rw [key _ hz]
    have : afterLastDashSpec z = z := by
      unfold afterLastDashSpec
      rw [afterLast_of_not_mem z.data hmem]
    simp [zoneSuffixSpec, this]
  · intro pre suf hz hmem
    rw [key _ hz]
    have : afterLastDashSpec (pre ++ "-" ++ suf) = suf := by
      unfold afterLastDashSpec
      have hd : (pre ++ "-" ++ suf).data = pre.data ++ '-' :: suf.data := by
        simp [String.data_append]
      rw [hd, afterLast_append pre.data suf.data hmem]
    simp [zoneSuffixSpec, this]
  · cases mz with
    | error e => exact Or.inl ⟨e, rfl⟩
    | ok z =>
      rcases exists_last_sep '-' z.data with h | ⟨pre, suf, hl, hs⟩
      · exact Or.inr (Or.inl ⟨z, rfl, h⟩)
      · refine Or.inr (Or.inr ⟨⟨pre⟩, ⟨suf⟩, ?_, hs⟩)
        have hz : z = (⟨pre⟩ : String) ++ "-" ++ ⟨suf⟩ := by
          apply String.ext
          simp [hl]
        rw [hz]
        rfl
  · intro zr hz
    refine ⟨?_, ?_, ?_, ?_⟩
    · intro h
      rw [key _ hz, h]
      rfl
    · intro h
      rw [key _ hz, h]
      rfl
    · intro h
      rw [key _ hz, h]
      rfl
    · intro ha hb hc
      rw [key _ hz]
      simp [pugURLSpec, ha, hb, hc]

theorem image_fragment_first_witness :
    (writes (httpEcho "hello" sampleRequest envAllFail).trace).head? =
        some "<center><img src=\"\"></center>\n" ∧
    (writes (httpEcho "hello" sampleRequest
        { envAllOk with metadataZone := .ok "b" }).trace).head? =
        some ("<center><img src=\"" ++ pugURLSpec "b" ++ "\"></center>" ++ "\n") ∧
    (writes (httpEcho "hello" sampleRequest envAllOk).trace).head? =
        some ("<center><img src=\"" ++ pugURLSpec "a" ++ "\"></center>" ++ "\n") ∧
    (writes (httpEcho "hello" sampleRequest envAllOk).trace).head? = some
      "<center><img src=\"https://storage.googleapis.com/radek-devfest-2017/red-pug.jpg\"></center>\n" ∧
    (writes (httpEcho "hello" sampleRequest
        { envAllOk with metadataZone := .ok "europe-west1-d" }).trace).head? =
        some "<center><img src=\"\"></center>\n" :=
  ⟨(image_fragment_first "hello" sampleRequest envAllFail).1 _ rfl,
   (image_fragment_first "hello" sampleRequest { envAllOk with metadataZone := .ok "b" }).2.1
      "b" rfl (by decide),
   (image_fragment_first "hello" sampleRequest envAllOk).2.2.1 "us-central1" "a" rfl
      (by decide),
   ((image_fragment_first "hello" sampleRequest envAllOk).2.2.2.2.2
      (.ok "us-central1-a") rfl).1 (by decide),
   ((image_fragment_first "hello" sampleRequest
      { envAllOk with metadataZone := .ok "europe-west1-d" }).2.2.2.2.2
      (.ok "europe-west1-d") rfl).2.2.2 (by decide) (by decide) (by decide)⟩

/-- C2, as stated, fails: with every collaborator down the body is the image
line followed by the "unknown node" fragment, not the fragment alone; and
when the consul agent answers without an `"Addr"` string the handler panics
before the nomad lookup, so the fragment is not written at all. -/
theorem unknown_node_only_counterexample :
    (getNomadInfo envAllFail).result = .ok (.error ⟨"nomad down"⟩) ∧
    body (httpEcho "hello" sampleRequest envAllFail).trace ≠
      "<center>Served from unknown node (nomad down)</center>" ∧
    body (httpEcho "hello" sampleRequest envAllFail).trace =
      "<center><img src=\"\"></center>\n<center>Served from unknown node (nomad down)</center>" ∧
    (getNomadInfo envNoMember).result = .ok (.error ⟨"nomad down"⟩) ∧
    body (httpEcho "hello" sampleRequest envNoMember).trace =
      "<center><img src=\"\"></center>\n" := by
  refine ⟨rfl, by decide, rfl, rfl, rfl⟩

/-- C2, amended. When the nomad lookup fails with error `e`, and the consul
lookup either fails or yields a member map whose `"Addr"` is a string, the
handler returns normally and its body writes are the image line, with the URL
of the zone-suffix code, followed by exactly the fragment
`<center>Served from unknown node (e)</center>`: nothing comes after it, so no
final fragment with node id, datacenter or region. -/
theorem unknown_node_after_image (v : String) (r : Request) (env : Env)
    (zr : Except GoError String) (e : GoError)
    (hz : (getZone env).result = .ok zr)
    (hn : (getNomadInfo env).result = .ok (.error e))
    (hc : ∀ member, (getConsulMemberInfo env).result = .ok (.ok member) →
      ∃ ip, member.index "Addr" = .str ip) :
    writes (httpEcho v r env).trace =
      ["<center><img src=\"" ++ pugURLSpec (zoneSuffixSpec zr) ++ "\"></center>" ++ "\n",
       "<center>Served from unknown node (" ++ e.Error ++ ")</center>"] ∧
    body (httpEcho v r env).trace =
      "<center><img src=\"" ++ pugURLSpec (zoneSuffixSpec zr) ++ "\"></center>" ++ "\n" ++
        ("<center>Served from unknown node (" ++ e.Error ++ ")</center>") ∧
    (httpEcho v r env).result = .ok () := by
  obtain ⟨mz, cn, cs, nn, ns⟩ := env
  simp [getZone, bind, pure, Run.bind, Run.pure, emit] at hz
  subst hz
  cases mz <;> cases cn <;> cases cs <;> cases nn <;> cases ns <;>
    simp [getConsulMemberInfo, getNomadInfo, bind, pure, Run.bind, Run.pure, emit] at hn hc <;>
    (try subst hn) <;> (try obtain ⟨ip, hip⟩ := hc) <;>
    simp [httpEcho, getZone, getConsulMemberInfo, getNomadInfo, bind, pure, Run.bind,
      Run.pure, emit, headerSet, Fprintln, Fprintf, writes, body, String.join,
      indexLast_stringsSplit, getLast_stringsSplit_dash, pugs_index, imageFragment,
      unknownNodeFragment, zoneSuffixSpec, assertString, *]

theorem unknown_node_after_image_witness :
    writes (httpEcho "hello" sampleRequest envNomadDown).trace =
      ["<center><img src=\"" ++ pugURLSpec (zoneSuffixSpec (.ok "us-central1-a")) ++
          "\"></center>" ++ "\n",
       "<center>Served from unknown node (" ++ "nomad down" ++ ")</center>"] ∧
    body (httpEcho "hello" sampleRequest envNomadDown).trace =
      "<center><img src=\"" ++ pugURLSpec (zoneSuffixSpec (.ok "us-central1-a")) ++
          "\"></center>" ++ "\n" ++
        ("<center>Served from unknown node (" ++ "nomad down" ++ ")</center>") ∧
    (httpEcho "hello" sampleRequest envNomadDown).result = .ok () :=
  unknown_node_after_image "hello" sampleRequest envNomadDown (.ok "us-central1-a")
    ⟨"nomad down"⟩ rfl rfl
    (fun member h => ⟨"10.0.0.1", by
      injection h with h
      injection h with h
      subst h
      rfl⟩)

/-- C3. When the nomad lookup succeeds with string `"Datacenter"` and
`"Region"` entries and the consul lookup fails with error `e`, the handler
returns normally and its last write is the final fragment, in which the text
rendered after `IP: ` is `unknown / ` followed by the text of `e`; this holds
for every outcome of the zone lookup. -/
theorem address_unknown_on_consul_failure (v : String) (r : Request) (env : Env)
    (zr : Except GoError String) (e : GoError) (nomad : AgentSelf) (dc rg : String)
    (hz : (getZone env).result = .ok zr)
    (hc : (getConsulMemberInfo env).result = .ok (.error e))
    (hn : (getNomadInfo env).result = .ok (.ok nomad))
    (hdc : nomad.Config.index "Datacenter" = .str dc)
    (hrg : nomad.Config.index "Region" = .str rg) :
    writes (httpEcho v r env).trace =
      ["<center><img src=\"" ++ pugURLSpec (zoneSuffixSpec zr) ++ "\"></center>" ++ "\n",
       "<br><center>Served from <strong>" ++ (nomad.Stats.index "client").index "node_id" ++
         "</strong> IP: " ++ ("unknown / " ++ e.Error) ++
         " (Zone: " ++ zoneTextSpec zr ++ ", DC: " ++ dc ++ ", region: " ++ rg ++
         ")</center>"] ∧
    (httpEcho v r env).result = .ok () := by
  obtain ⟨mz, cn, cs, nn, ns⟩ := env
  simp [getZone, bind, pure, Run.bind, Run.pure, emit] at hz
  subst hz
  cases mz <;> cases cn <;> cases cs <;> cases nn <;> cases ns <;>
    simp [getConsulMemberInfo, getNomadInfo, bind, pure, Run.bind, Run.pure, emit] at hn hc <;>
    subst hn <;> subst hc <;>
    simp [httpEcho, getZone, getConsulMemberInfo, getNomadInfo, bind, pure, Run.bind,
      Run.pure, emit, headerSet, Fprintln, Fprintf, writes, indexLast_stringsSplit,
      getLast_stringsSplit_dash, pugs_index, imageFragment, finalFragment, zoneSuffixSpec,
      zoneTextSpec, assertString, *]

theorem address_unknown_on_consul_failure_witness :
    writes (httpEcho "hello" sampleRequest envConsulDown).trace =
      ["<center><img src=\"" ++ pugURLSpec (zoneSuffixSpec (.ok "us-central1-a")) ++
          "\"></center>" ++ "\n",
       "<br><center>Served from <strong>" ++ "n1" ++
         "</strong> IP: " ++ ("unknown / " ++ "connection refused") ++
         " (Zone: " ++ zoneTextSpec (.ok "us-central1-a") ++ ", DC: " ++ "dc1" ++
         ", region: " ++ "global" ++ ")</center>"] ∧
    (httpEcho "hello" sampleRequest envConsulDown).result = .ok () :=
  address_unknown_on_consul_failure "hello" sampleRequest envConsulDown
    (.ok "us-central1-a") ⟨"connection refused"⟩
    { Config := [("Datacenter", .str "dc1"), ("Region", .str "global")],
      Stats := [("client", [("node_id", "n1")])] }
    "dc1" "global" rfl rfl rfl rfl rfl

/-- C5. When the zone lookup yields `z`, the consul lookup yields a member map
whose `"Addr"` is the string `ip`, and the nomad lookup yields a result with
`Stats["client"]["node_id"] = n`, `Config["Datacenter"] = dc` and
`Config["Region"] = rg` as strings, the handler returns normally and its body
is the image line, with the URL of the suffix code of `z`, followed by exactly
`<br><center>Served from <strong>n</strong> IP: ip (Zone: z, DC: dc, region: rg)</center>`,
with the full zone string `z`. -/
theorem success_body (v : String) (r : Request) (env : Env) (z ip n dc rg : String)
    (member : GoMap Iface) (nomad : AgentSelf)
    (hz : (getZone env).result = .ok (.ok z))
    (hc : (getConsulMemberInfo env).result = .ok (.ok member))
    (hip : member.index "Addr" = .str ip)
    (hn : (getNomadInfo env).result = .ok (.ok nomad))
    (hid : (nomad.Stats.index "client").index "node_id" = n)
    (hdc : nomad.Config.index "Datacenter" = .str dc)
    (hrg : nomad.Config.index "Region" = .str rg) :
    body (httpEcho v r env).trace =
      "<center><img src=\"" ++ pugURLSpec (afterLastDashSpec z) ++ "\"></center>" ++ "\n" ++
        ("<br><center>Served from <strong>" ++ n ++ "</strong> IP: " ++ ip ++
          " (Zone: " ++ z ++ ", DC: " ++ dc ++ ", region: " ++ rg ++ ")</center>") ∧
    writes (httpEcho v r env).trace =
      ["<center><img src=\"" ++ pugURLSpec (afterLastDashSpec z) ++ "\"></center>" ++ "\n",
       "<br><center>Served from <strong>" ++ n ++ "</strong> IP: " ++ ip ++
          " (Zone: " ++ z ++ ", DC: " ++ dc ++ ", region: " ++ rg ++ ")</center>"] ∧
    (httpEcho v r env).result = .ok () := by
  obtain ⟨mz, cn, cs, nn, ns⟩ := env
  cases mz <;> cases cn <;> cases cs <;> cases nn <;> cases ns <;>
    simp [getZone, getConsulMemberInfo, getNomadInfo, bind, pure, Run.bind, Run.pure,
      emit] at hz hc hn
  subst hz hc hn
  simp [httpEcho, getZone, getConsulMemberInfo, getNomadInfo, bind, pure, Run.bind,
    Run.pure, emit, headerSet, Fprintln, Fprintf, writes, body, indexLast_stringsSplit,
    getLast_stringsSplit_dash, pugs_index, imageFragment, assertString, finalFragment,
    String.join, *]

theorem success_body_witness :
    body (httpEcho "hello" sampleRequest envAllOk).trace =
      "<center><img src=\"" ++ pugURLSpec (afterLastDashSpec "us-central1-a") ++
          "\"></center>" ++ "\n" ++
        ("<br><center>Served from <strong>" ++ "n1" ++ "</strong> IP: " ++ "10.0.0.1" ++
          " (Zone: " ++ "us-central1-a" ++ ", DC: " ++ "dc1" ++ ", region: " ++ "global" ++
          ")</center>") ∧
    writes (httpEcho "hello" sampleRequest envAllOk).trace =
      ["<center><img src=\"" ++ pugURLSpec (afterLastDashSpec "us-central1-a") ++
          "\"></center>" ++ "\n",
       "<br><center>Served from <strong>" ++ "n1" ++ "</strong> IP: " ++ "10.0.0.1" ++
          " (Zone: " ++ "us-central1-a" ++ ", DC: " ++ "dc1" ++ ", region: " ++ "global" ++
          ")</center>"] ∧
    (httpEcho "hello" sampleRequest envAllOk).result = .ok () :=
  success_body "hello" sampleRequest envAllOk "us-central1-a" "10.0.0.1" "n1" "dc1" "global"
    [("Addr", .str "10.0.0.1")]
    { Config := [("Datacenter", .str "dc1"), ("Region", .str "global")],
      Stats := [("client", [("node_id", "n1")])] }
    rfl rfl rfl rfl rfl rfl rfl

/-- C9. The handler does not depend on the text it is given: for any two
texts, the same request and the same lookup outcomes, `httpEcho` performs the
same header writes, the same lookups and the same body writes, and ends the
same way. -/
theorem text_not_rendered (v1 v2 : String) (r : Request) (env : Env) :
    httpEcho v1 r env = httpEcho v2 r env ∧
    headers (httpEcho v1 r env).trace = headers (httpEcho v2 r env).trace ∧
    body (httpEcho v1 r env).trace = body (httpEcho v2 r env).trace :=
  ⟨rfl, rfl, rfl⟩

/-! ## The health handler -/

/-- C4, as stated, fails: the body of the health handler is not the bare
literal, since `Fprintln` closes it with a newline. -/
theorem health_body_counterexample :
    body (httpHealth sampleRequest envAllFail).trace ≠ "\x7b\"status\":\"ok\"\x7d" ∧
    (body (httpHealth sampleRequest envAllFail).trace).length = 16 := by
  decide

/-- C4, amended. For every request and every state of the collaborators, the
health handler performs exactly one step, the write of the literal
`{"status":"ok"}` followed by one newline, and returns normally; it makes no
lookup and cannot panic. -/
theorem health_body (r : Request) (env : Env) :
    httpHealth r env = ⟨[.write ("\x7b\"status\":\"ok\"\x7d" ++ "\n")], .ok ()⟩ ∧
    body (httpHealth r env).trace = "\x7b\"status\":\"ok\"\x7d" ++ "\n" ∧
    (httpHealth r env).result = .ok () ∧
    ∀ e ∈ (httpHealth r env).trace, e.isLookup = false := by
  refine ⟨rfl, rfl, rfl, ?_⟩
  intro e he
  have h : e = .write ("\x7b\"status\":\"ok\"\x7d" ++ "\n") := List.mem_singleton.mp he
  subst h
  rfl

/-! ## Malformed collaborator responses -/

/-- C10. A malformed collaborator response makes the handler panic.
(1) When the consul lookup yields a member map whose `"Addr"` is not a string,
the handler panics on the type assertion; its steps up to there are the header
write, the zone lookup, the image line and the two consul calls, so the nomad
lookup is not made and nothing is written after the image line.
(2) The same holds when the agent answers without a `"Member"` entry.
(3) When the nomad lookup would yield a result whose `"Datacenter"` or
`"Region"` is not a string, the handler panics and the image line is its only
write.
(4) When `"Datacenter"` and `"Region"` are strings, the consul lookup does not
yield a malformed map, and `Stats` has no `"client"` entry or that entry has no
`"node_id"`, the handler returns normally and the final fragment carries the
empty node id. -/
theorem malformed_response_faults (v : String) (r : Request) (env : Env) :
    (∀ member, (getConsulMemberInfo env).result = .ok (.ok member) →
      (∀ s, member.index "Addr" ≠ .str s) →
      ∃ url, (httpEcho v r env).trace =
          [.headerSet "Content-Type" "text/html", .metadataZone,
           .write (imageFragment url ++ "\n"), .consulNewClient, .consulAgentSelf] ∧
        (httpEcho v r env).result = .error (.interfaceConversion (member.index "Addr"))) ∧
    (∀ self, env.consulNewClient = .ok () → env.consulAgentSelf = .ok self →
      self.lookup "Member" = none →
      ∃ url, (httpEcho v r env).trace =
          [.headerSet "Content-Type" "text/html", .metadataZone,
           .write (imageFragment url ++ "\n"), .consulNewClient, .consulAgentSelf] ∧
        (httpEcho v r env).result = .error (.interfaceConversion .nil)) ∧
    (∀ nomad, (getNomadInfo env).result = .ok (.ok nomad) →
      ((∀ s, nomad.Config.index "Datacenter" ≠ .str s) ∨
        (∀ s, nomad.Config.index "Region" ≠ .str s)) →
      ∃ url p, writes (httpEcho v r env).trace = [imageFragment url ++ "\n"] ∧
        (httpEcho v r env).result = .error p) ∧
    (∀ nomad dc rg, (getNomadInfo env).result = .ok (.ok nomad) →
      nomad.Config.index "Datacenter" = .str dc →
      nomad.Config.index "Region" = .str rg →
      (∀ member, (getConsulMemberInfo env).result = .ok (.ok member) →
        ∃ ip, member.index "Addr" = .str ip) →
      (nomad.Stats.lookup "client" = none ∨
        ∃ m, nomad.Stats.lookup "client" = some m ∧ m.lookup "node_id" = none) →
      ∃ url ip zone, writes (httpEcho v r env).trace =
          [imageFragment url ++ "\n", finalFragment "" ip zone dc rg] ∧
        (httpEcho v r env).result = .ok ()) := by
  obtain ⟨mz, cn, cs, nn, ns⟩ := env
  have part1 : ∀ member,
      (getConsulMemberInfo ⟨mz, cn, cs, nn, ns⟩).result = .ok (.ok member) →
      (∀ s, member.index "Addr" ≠ .str s) →
      ∃ url, (httpEcho v r ⟨mz, cn, cs, nn, ns⟩).trace =
          [.headerSet "Content-Type" "text/html", .metadataZone,
           .write (imageFragment url ++ "\n"), .consulNewClient, .consulAgentSelf] ∧
        (httpEcho v r ⟨mz, cn, cs, nn, ns⟩).result =
          .error (.interfaceConversion (member.index "Addr")) := by
    intro member hc hbad
    refine ⟨pugs.index (match mz with
      | .error _ => ""
      | .ok z => (stringsSplit z '-').getLast?.getD ""), ?_⟩
    cases cn <;> cases cs <;>
      simp [getConsulMemberInfo, bind, pure, Run.bind, Run.pure, emit] at hc
    subst hc
    cases mz <;>
      simp [httpEcho, getZone, getConsulMemberInfo, bind, pure, Run.bind, Run.pure, emit,
        headerSet, Fprintln, indexLast_stringsSplit, assertString_of_not_str _ hbad, goPanic]
  refine ⟨part1, ?_, ?_, ?_⟩
  · intro self h1 h2 h3
    simp only at h1 h2
    subst h1 h2
    have hm : (GoMap.index self "Member" : GoMap Iface) = [] := by
      simp [GoMap.index, h3, GoZero.zero]
    have := part1 (GoMap.index self "Member") rfl (by rw [hm]; intro s; simp [GoMap.index, GoZero.zero])
    rw [hm] at this
    exact this
  · intro nomad hn hbad
    have hcfg : assertString (nomad.Config.index "Datacenter") =
          goPanic (.interfaceConversion (nomad.Config.index "Datacenter")) ∨
        ∃ s, nomad.Config.index "Datacenter" = .str s ∧
          assertString (nomad.Config.index "Region") =
            goPanic (.interfaceConversion (nomad.Config.index "Region")) := by
      rcases hbad with h | h
      · exact Or.inl (assertString_of_not_str _ h)
      · rcases assertString_cases (nomad.Config.index "Datacenter") with ⟨s, hs⟩ | hd
        · exact Or.inr ⟨s, hs, assertString_of_not_str _ h⟩
        · exact Or.inl hd
    clear part1
    cases nn with
    | error e => simp [getNomadInfo, bind, pure, Run.bind, Run.pure, emit] at hn
    | ok u =>
      cases ns with
      | error e => simp [getNomadInfo, bind, pure, Run.bind, Run.pure, emit] at hn
      | ok self =>
        simp [getNomadInfo, bind, pure, Run.bind, Run.pure, emit] at hn
        subst hn
        refine ⟨pugs.index (match mz with
          | .error _ => ""
          | .ok z => (stringsSplit z '-').getLast?.getD ""), ?_⟩
        cases cn with
        | error ce =>
          rcases hcfg with hd | ⟨s, hs, hr⟩ <;> cases mz <;>
            simp [httpEcho, getZone, getConsulMemberInfo, getNomadInfo, bind, pure, Run.bind,
              Run.pure, emit, headerSet, Fprintln, Fprintf, writes, indexLast_stringsSplit,
              assertString_str, goPanic, *]
        | ok cu =>
          cases cs with
          | error ce =>
            rcases hcfg with hd | ⟨s, hs, hr⟩ <;> cases mz <;>
              simp [httpEcho, getZone, getConsulMemberInfo, getNomadInfo, bind, pure, Run.bind,
                Run.pure, emit, headerSet, Fprintln, Fprintf, writes, indexLast_stringsSplit,
                assertString_str, goPanic, *]
          | ok cself =>
            rcases assertString_cases ((GoMap.index cself "Member" : GoMap Iface).index "Addr")
              with ⟨ip, hip⟩ | hbadip
            · rcases hcfg with hd | ⟨s, hs, hr⟩ <;> cases mz <;>
                simp [httpEcho, getZone, getConsulMemberInfo, getNomadInfo, bind, pure, Run.bind,
                  Run.pure, emit, headerSet, Fprintln, Fprintf, writes, indexLast_stringsSplit,
                  assertString_str, goPanic, *]
            · cases mz <;>
                simp [httpEcho, getZone, getConsulMemberInfo, getNomadInfo, bind, pure, Run.bind,
                  Run.pure, emit, headerSet, Fprintln, Fprintf, writes, indexLast_stringsSplit,
                  goPanic, hbadip]
  · intro nomad dc rg hn hdc hrg hc hstats
    clear part1
    have hid : (nomad.Stats.index "client").index "node_id" = "" := by
      rcases hstats with h | ⟨m, h1, h2⟩
      · simp [GoMap.index, h, GoZero.zero]
      · simp [GoMap.index, h1, h2, GoZero.zero]
    cases nn with
    | error e => simp [getNomadInfo, bind, pure, Run.bind, Run.pure, emit] at hn
    | ok u =>
      cases ns with
      | error e => simp [getNomadInfo, bind, pure, Run.bind, Run.pure, emit] at hn
      | ok self =>
        simp [getNomadInfo, bind, pure, Run.bind, Run.pure, emit] at hn
        subst hn
        cases cn with
        | error ce =>
          clear hc
          refine ⟨pugs.index (match mz with
            | .error _ => ""
            | .ok z => (stringsSplit z '-').getLast?.getD ""), "unknown / " ++ ce.Error,
            (match mz with
            | .error _ => "unknown"
            | .ok z => z), ?_⟩
          cases mz <;>
            simp [httpEcho, getZone, getConsulMemberInfo, getNomadInfo, bind, pure, Run.bind,
              Run.pure, emit, headerSet, Fprintln, Fprintf, writes, indexLast_stringsSplit,
              assertString_str, hid, hdc, hrg]
        | ok cu =>
          cases cs with
          | error ce =>
            clear hc
            refine ⟨pugs.index (match mz with
              | .error _ => ""
              | .ok z => (stringsSplit z '-').getLast?.getD ""), "unknown / " ++ ce.Error,
              (match mz with
              | .error _ => "unknown"
              | .ok z => z), ?_⟩
            cases mz <;>
              simp [httpEcho, getZone, getConsulMemberInfo, getNomadInfo, bind, pure, Run.bind,
                Run.pure, emit, headerSet, Fprintln, Fprintf, writes, indexLast_stringsSplit,
                assertString_str, hid, hdc, hrg]
          | ok cself =>
            obtain ⟨ip, hip⟩ := hc (GoMap.index cself "Member") rfl
            clear hc
            refine ⟨pugs.index (match mz with
              | .error _ => ""
              | .ok z => (stringsSplit z '-').getLast?.getD ""), ip,
              (match mz with
              | .error _ => "unknown"
              | .ok z => z), ?_⟩
            cases mz <;>
              simp [httpEcho, getZone, getConsulMemberInfo, getNomadInfo, bind, pure, Run.bind,
                Run.pure, emit, headerSet, Fprintln, Fprintf, writes, indexLast_stringsSplit,
                assertString_str, hid, hdc, hrg, hip]

theorem malformed_response_faults_witness :
    (∃ url, (httpEcho "hello" sampleRequest envBadAddr).trace =
        [.headerSet "Content-Type" "text/html", .metadataZone,
         .write (imageFragment url ++ "\n"), .consulNewClient, .consulAgentSelf] ∧
      (httpEcho "hello" sampleRequest envBadAddr).result =
        .error (.interfaceConversion (.number 167772161))) ∧
    (∃ url, (httpEcho "hello" sampleRequest envNoMember).trace =
        [.headerSet "Content-Type" "text/html", .metadataZone,
         .write (imageFragment url ++ "\n"), .consulNewClient, .consulAgentSelf] ∧
      (httpEcho "hello" sampleRequest envNoMember).result =
        .error (.interfaceConversion .nil)) ∧
    (∃ url p, writes (httpEcho "hello" sampleRequest envBadRegion).trace =
        [imageFragment url ++ "\n"] ∧
      (httpEcho "hello" sampleRequest envBadRegion).result = .error p) ∧
    (∃ url ip zone, writes (httpEcho "hello" sampleRequest envNoStats).trace =
        [imageFragment url ++ "\n", finalFragment "" ip zone "dc1" "global"] ∧
      (httpEcho "hello" sampleRequest envNoStats).result = .ok ()) :=
  ⟨(malformed_response_faults "hello" sampleRequest envBadAddr).1
      [("Addr", .number 167772161)] rfl (by intro s h; simp [GoMap.index, List.lookup] at h),
   (malformed_response_faults "hello" sampleRequest envNoMember).2.1 [] rfl rfl rfl,
   (malformed_response_faults "hello" sampleRequest envBadRegion).2.2.1
      { Config := [("Datacenter", .str "dc1"), ("Region", .number 7)],
        Stats := [("client", [("node_id", "n1")])] }
      rfl (Or.inr (by intro s h; simp [GoMap.index, List.lookup] at h)),
   (malformed_response_faults "hello" sampleRequest envNoStats).2.2.2
      { Config := [("Datacenter", .str "dc1"), ("Region", .str "global")], Stats := [] }
      "dc1" "global" rfl rfl rfl
      (fun member h => ⟨"10.0.0.1", by
        injection h with h
        injection h with h
        subst h
        rfl⟩)
      (Or.inl rfl)⟩


/-! ## The process entry point -/

/-- C6, as stated, fails: with `-version` on the command line followed by an
undefined flag, or by `-text` without its value, `flag.Parse()` ends the
process with code 2 and the version is not printed. -/
theorem version_flag_counterexample :
    main ["-version", "-bogus"] sampleMainEnv [] =
      ⟨[.flagError (.notDefined "bogus")], .exited 2⟩ ∧
    (main ["-version", "-bogus"] sampleMainEnv []).status ≠ .exited 0 ∧
    MainEffect.stderrLine sampleMainEnv.humanVersion ∉
      (main ["-version", "-bogus"] sampleMainEnv []).trace ∧
    main ["-version", "-text"] sampleMainEnv [] =
      ⟨[.flagError (.needsArgument "text")], .exited 2⟩ := by
  refine ⟨rfl, by decide, by decide, rfl⟩

/-- C6, amended. For every command line that `flag.Parse()` accepts and that
leaves the `-version` flag set, whatever the values of `-text` and `-listen`
and the positional arguments, `main` prints the version text on the error
stream and exits with code 0; these are its only steps, so no server is
constructed or started and no handler, hence no lookup, can run. In
particular this is so for `-version -text t -listen l -- pos` with any `t`,
`l` and `pos`. -/
theorem version_exits_zero (argv : List String) (flags : Flags) (menv : MainEnv)
    (signals : List Signal) (hp : flagParse argv = .ok flags)
    (hv : flags.versionFlag = true) :
    main argv menv signals = ⟨[.stderrLine menv.humanVersion], .exited 0⟩ ∧
    (∀ e ∈ (main argv menv signals).trace, e.isServer = false) ∧
    (∀ (t l : String) (pos : List String),
      main ("-version" :: "-text" :: t :: "-listen" :: l :: "--" :: pos) menv signals =
        ⟨[.stderrLine menv.humanVersion], .exited 0⟩) := by
  have key : main argv menv signals = ⟨[.stderrLine menv.humanVersion], .exited 0⟩ := by
    simp [main, hp, hv]
  refine ⟨key, ?_, fun t l pos => rfl⟩
  rw [key]
  intro e he
  have h : e = .stderrLine menv.humanVersion := List.mem_singleton.mp he
  subst h
  rfl

theorem version_exits_zero_witness :
    main ["-version", "-listen=:8080", "extra"] sampleMainEnv [SIGINT] =
      ⟨[.stderrLine sampleMainEnv.humanVersion], .exited 0⟩ ∧
    (∀ e ∈ (main ["-version", "-listen=:8080", "extra"] sampleMainEnv [SIGINT]).trace,
      e.isServer = false) ∧
    (∀ (t l : String) (pos : List String),
      main ("-version" :: "-text" :: t :: "-listen" :: l :: "--" :: pos) sampleMainEnv
          [SIGINT] =
        ⟨[.stderrLine sampleMainEnv.humanVersion], .exited 0⟩) :=
  version_exits_zero ["-version", "-listen=:8080", "extra"] ⟨":8080", "", true, ["extra"]⟩
    sampleMainEnv [SIGINT] rfl rfl

/-- C7, as stated, fails: with `-version` set the process exits with code 0,
not 127, both when `-text` is absent and when positional arguments are given;
and with an undefined flag and no `-text` it exits with code 2 inside
`flag.Parse()`. -/
theorem missing_text_counterexample :
    (main ["-version"] sampleMainEnv []).status = .exited 0 ∧
    (main ["-version"] sampleMainEnv []).status ≠ .exited 127 ∧
    (main ["-text", "hello", "-version", "extra"] sampleMainEnv []).status = .exited 0 ∧
    (main ["-text", "hello", "-version", "extra"] sampleMainEnv []).status ≠ .exited 127 ∧
    (main ["-bogus"] sampleMainEnv []).status = .exited 2 ∧
    (main ["-bogus"] sampleMainEnv []).status ≠ .exited 127 := by
  decide

/-- C7, amended. For every command line that `flag.Parse()` accepts and that
leaves the `-version` flag unset: when `-text` is absent or empty, or
positional arguments are present, `main` prints one line on the error stream
and exits with code 127; these are its only steps, so the server is neither
constructed nor started. In particular this is so for the empty command line,
and for `-text t -- pos` with any `t` and any non-empty `pos`. -/
theorem invalid_invocation_exits_127 (argv : List String) (flags : Flags)
    (menv : MainEnv) (signals : List Signal) (hp : flagParse argv = .ok flags)
    (hv : flags.versionFlag = false)
    (h : flags.textFlag = "" ∨ flags.args ≠ []) :
    main argv menv signals =
      ⟨[.stderrLine (if flags.textFlag = "" then "Missing -text option!"
          else "Too many arguments!")], .exited 127⟩ ∧
    (main argv menv signals).status = .exited 127 ∧
    (∀ e ∈ (main argv menv signals).trace, e.isServer = false) ∧
    main [] menv signals = ⟨[.stderrLine "Missing -text option!"], .exited 127⟩ ∧
    (∀ (t p : String) (pos : List String),
      (main ("-text" :: t :: "--" :: p :: pos) menv signals).status = .exited 127) := by
  have key : main argv menv signals =
      ⟨[.stderrLine (if flags.textFlag = "" then "Missing -text option!"
          else "Too many arguments!")], .exited 127⟩ := by
    by_cases ht : flags.textFlag = ""
    · simp [main, hp, hv, ht]
    · have ha : flags.args ≠ [] := h.resolve_left ht
      have hl : flags.args.length > 0 := List.length_pos.mpr ha
      simp [main, hp, hv, ht, hl]
  refine ⟨key, by rw [key], ?_, rfl, ?_⟩
  · rw [key]
    intro e he
    simp at he
    subst he
    rfl
  · intro t p pos
    have hparse : flagParse ("-text" :: t :: "--" :: p :: pos) =
        .ok ⟨":5678", t, false, p :: pos⟩ := rfl
    by_cases ht : t = ""
    · subst ht
      simp [main, hparse]
    · simp [main, hparse, ht]

theorem invalid_invocation_exits_127_witness :
    main ["-listen", ":80"] sampleMainEnv [] =
      ⟨[.stderrLine "Missing -text option!"], .exited 127⟩ ∧
    main ["-text=hello", "extra"] sampleMainEnv [] =
      ⟨[.stderrLine "Too many arguments!"], .exited 127⟩ ∧
    (∀ e ∈ (main ["-text=hello", "extra"] sampleMainEnv []).trace, e.isServer = false) :=
  ⟨(invalid_invocation_exits_127 ["-listen", ":80"] ⟨":80", "", false, []⟩ sampleMainEnv []
      rfl rfl (Or.inl rfl)).1,
   (invalid_invocation_exits_127 ["-text=hello", "extra"] ⟨":5678", "hello", false, ["extra"]⟩
      sampleMainEnv [] rfl rfl (Or.inr (by decide))).1,
   (invalid_invocation_exits_127 ["-text=hello", "extra"] ⟨":5678", "hello", false, ["extra"]⟩
      sampleMainEnv [] rfl rfl (Or.inr (by decide))).2.2.1⟩

theorem signalLoop_of_exited (menv : MainEnv) (p : Proc) (code : Nat)
    (hp : p.status = .exited code) (signals : List Signal) :
    signalLoop menv p signals = p := by
  induction signals with
  | nil => rfl
  | cons s rest ih =>
    have hs : signalStep menv p s = p := by simp [signalStep, hp]
    simpa [signalLoop, hs] using ih

theorem signalStep_sigint (menv : MainEnv) (p : Proc) (hp : p.status = .running) :
    signalStep menv p SIGINT =
      ⟨p.trace ++ [.logPrintf "[INFO] Received interrupt", .serverStop], .exited 2⟩ := by
  simp [signalStep, hp]

theorem signalStep_other (menv : MainEnv) (p : Proc) (hp : p.status = .running)
    (s : Signal) (hs : s ≠ SIGINT) :
    signalStep menv p s =
      ⟨p.trace ++ [.logPrintf ("[ERR] Unknown signal " ++ menv.signalString s)], .running⟩ := by
  simp [signalStep, hp, hs]

theorem signalLoop_no_sigint (menv : MainEnv) (signals : List Signal)
    (hs : SIGINT ∉ signals) (p : Proc) (hp : p.status = .running) :
    signalLoop menv p signals =
      ⟨p.trace ++ signals.map
        (fun s => .logPrintf ("[ERR] Unknown signal " ++ menv.signalString s)), .running⟩ := by
  induction signals generalizing p with
  | nil =>
    obtain ⟨t, st⟩ := p
    simp only at hp
    subst hp
    simp [signalLoop]
  | cons s rest ih =>
    have h1 : s ≠ SIGINT := fun e => hs (by simp [e])
    have h2 : SIGINT ∉ rest := fun m => hs (List.mem_cons_of_mem _ m)
    have hstep := signalStep_other menv p hp s h1
    have := ih h2 (signalStep menv p s) (by rw [hstep])
    simp only [signalLoop, List.foldl_cons] at this ⊢
    rw [this, hstep]
    simp

theorem signalLoop_sigint (menv : MainEnv) (pre post : List Signal)
    (hs : SIGINT ∉ pre) (p : Proc) (hp : p.status = .running) :
    signalLoop menv p (pre ++ SIGINT :: post) =
      ⟨p.trace ++ pre.map
          (fun s => .logPrintf ("[ERR] Unknown signal " ++ menv.signalString s)) ++
        [.logPrintf "[INFO] Received interrupt", .serverStop], .exited 2⟩ := by
  have h1 := signalLoop_no_sigint menv pre hs p hp
  have h2 : signalLoop menv p (pre ++ SIGINT :: post) =
      signalLoop menv (signalStep menv (signalLoop menv p pre) SIGINT) post := by
    simp [signalLoop, List.foldl_append]
  rw [h2, h1, signalStep_sigint menv _ rfl]
  exact signalLoop_of_exited menv _ 2 rfl post

theorem signalLoop_exit_code (menv : MainEnv) (signals : List Signal) (p : Proc)
    (hp : p.status = .running) (code : Nat)
    (h : (signalLoop menv p signals).status = .exited code) : code = 2 := by
  induction signals generalizing p with
  | nil =>
    simp [signalLoop, hp] at h
  | cons s rest ih =>
    by_cases hs : s = SIGINT
    · subst hs
      have hstep := signalStep_sigint menv p hp
      have hl := signalLoop_of_exited menv (signalStep menv p SIGINT) 2 (by rw [hstep]) rest
      simp only [signalLoop, List.foldl_cons] at h hl
      rw [hl, hstep] at h
      simp at h
      exact h.symm
    · have hstep := signalStep_other menv p hp s hs
      exact ih (signalStep menv p s) (by rw [hstep]) (by simpa [signalLoop] using h)

/-- C8. The signal loop as a step function on the process state. From a
running process, `SIGINT` logs the interrupt, stops the server and exits with
code 2; any other signal only logs a line and leaves the process running, the
server not stopped. Hence after any finite sequence of signals without
`SIGINT` the process is still running and has only logged; at the first
`SIGINT` of a sequence the loop stops the server and exits with code 2,
whatever follows; and after any finite sequence the process is either running
or has exited with code 2. The last part states the same of `main` itself
once the command line is valid and the server has been constructed: its steps
are the set-up, the start of the server, one log line per signal before the
first `SIGINT`, and at that `SIGINT` the interrupt line, the stop of the
server and exit code 2. -/
theorem signal_loop_behaviour (menv : MainEnv) (p : Proc) (hp : p.status = .running) :
    signalStep menv p SIGINT =
      ⟨p.trace ++ [.logPrintf "[INFO] Received interrupt", .serverStop], .exited 2⟩ ∧
    (∀ s, s ≠ SIGINT →
      signalStep menv p s =
        ⟨p.trace ++ [.logPrintf ("[ERR] Unknown signal " ++ menv.signalString s)],
          .running⟩) ∧
    (∀ signals, SIGINT ∉ signals →
      signalLoop menv p signals =
        ⟨p.trace ++ signals.map
          (fun s => .logPrintf ("[ERR] Unknown signal " ++ menv.signalString s)),
          .running⟩) ∧
    (∀ pre post, SIGINT ∉ pre →
      signalLoop menv p (pre ++ SIGINT :: post) =
        ⟨p.trace ++ pre.map
            (fun s => .logPrintf ("[ERR] Unknown signal " ++ menv.signalString s)) ++
          [.logPrintf "[INFO] Received interrupt", .serverStop], .exited 2⟩) ∧
    (∀ signals, (signalLoop menv p signals).status = .running ∨
      (signalLoop menv p signals).status = .exited 2) ∧
    (∀ argv flags, flagParse argv = .ok flags → flags.versionFlag = false →
      flags.textFlag ≠ "" → flags.args = [] →
      menv.newServer flags.listenFlag = .ok () →
      (∀ signals, SIGINT ∉ signals →
        main argv menv signals =
          ⟨[.newServeMux,
            .handleFunc "/" (.httpLog (.withAppHeaders (.httpEcho flags.textFlag))),
            .handleFunc "/health" (.withAppHeaders .httpHealth),
            .newServer flags.listenFlag,
            .goServerStart,
            .logPrintf ("Server is listening on " ++ flags.listenFlag ++ "\n"),
            .signalNotify] ++
           signals.map
             (fun s => .logPrintf ("[ERR] Unknown signal " ++ menv.signalString s)),
           .running⟩) ∧
      (∀ pre post, SIGINT ∉ pre →
        main argv menv (pre ++ SIGINT :: post) =
          ⟨[.newServeMux,
            .handleFunc "/" (.httpLog (.withAppHeaders (.httpEcho flags.textFlag))),
            .handleFunc "/health" (.withAppHeaders .httpHealth),
            .newServer flags.listenFlag,
            .goServerStart,
            .logPrintf ("Server is listening on " ++ flags.listenFlag ++ "\n"),
            .signalNotify] ++
           pre.map
             (fun s => .logPrintf ("[ERR] Unknown signal " ++ menv.signalString s)) ++
           [.logPrintf "[INFO] Received interrupt", .serverStop],
           .exited 2⟩) ∧
      (∀ signals, (main argv menv signals).status = .running ∨
        (main argv menv signals).status = .exited 2)) := by
  have hloop : ∀ (q : Proc), q.status = .running → ∀ signals,
      (signalLoop menv q signals).status = .running ∨
        (signalLoop menv q signals).status = .exited 2 := by
    intro q hq signals
    cases hst : (signalLoop menv q signals).status with
    | running => exact Or.inl rfl
    | exited code =>
      have := signalLoop_exit_code menv signals q hq code hst
      subst this
      exact Or.inr rfl
  refine ⟨signalStep_sigint menv p hp, fun s hs => signalStep_other menv p hp s hs,
    fun signals hs => signalLoop_no_sigint menv signals hs p hp,
    fun pre post hs => signalLoop_sigint menv pre post hs p hp, hloop p hp, ?_⟩
  intro argv flags hparse hv ht ha hsrv
  have hmain : ∀ signals, main argv menv signals =
      signalLoop menv
        ⟨[.newServeMux,
          .handleFunc "/" (.httpLog (.withAppHeaders (.httpEcho flags.textFlag))),
          .handleFunc "/health" (.withAppHeaders .httpHealth),
          .newServer flags.listenFlag,
          .goServerStart,
          .logPrintf ("Server is listening on " ++ flags.listenFlag ++ "\n"),
          .signalNotify], .running⟩ signals := by
    intro signals
    simp [main, hparse, hv, ht, ha, hsrv]
  refine ⟨?_, ?_, ?_⟩
  · intro signals hs
    rw [hmain, signalLoop_no_sigint menv signals hs _ rfl]
  · intro pre post hs
    rw [hmain, signalLoop_sigint menv pre post hs _ rfl]
  · intro signals
    rw [hmain]
    exact hloop _ rfl signals

theorem signal_loop_behaviour_witness :
    signalStep sampleMainEnv ⟨[.signalNotify], .running⟩ SIGINT =
      ⟨[.signalNotify, .logPrintf "[INFO] Received interrupt", .serverStop], .exited 2⟩ ∧
    signalStep sampleMainEnv ⟨[.signalNotify], .running⟩ 15 =
      ⟨[.signalNotify, .logPrintf "[ERR] Unknown signal terminated"], .running⟩ ∧
    signalLoop sampleMainEnv ⟨[.signalNotify], .running⟩ [15, 1] =
      ⟨[.signalNotify, .logPrintf "[ERR] Unknown signal terminated",
        .logPrintf "[ERR] Unknown signal signal"], .running⟩ ∧
    signalLoop sampleMainEnv ⟨[.signalNotify], .running⟩ [15, SIGINT, 15, SIGINT] =
      ⟨[.signalNotify, .logPrintf "[ERR] Unknown signal terminated",
        .logPrintf "[INFO] Received interrupt", .serverStop], .exited 2⟩ ∧
    main ["-text", "hello"] sampleMainEnv [15, 1] =
      ⟨[.newServeMux,
        .handleFunc "/" (.httpLog (.withAppHeaders (.httpEcho "hello"))),
        .handleFunc "/health" (.withAppHeaders .httpHealth),
        .newServer ":5678",
        .goServerStart,
        .logPrintf "Server is listening on :5678\n",
        .signalNotify,
        .logPrintf "[ERR] Unknown signal terminated",
        .logPrintf "[ERR] Unknown signal signal"], .running⟩ ∧
    main ["-text", "hello"] sampleMainEnv [15, SIGINT, 15] =
      ⟨[.newServeMux,
        .handleFunc "/" (.httpLog (.withAppHeaders (.httpEcho "hello"))),
        .handleFunc "/health" (.withAppHeaders .httpHealth),
        .newServer ":5678",
        .goServerStart,
        .logPrintf "Server is listening on :5678\n",
        .signalNotify,
        .logPrintf "[ERR] Unknown signal terminated",
        .logPrintf "[INFO] Received interrupt",
        .serverStop], .exited 2⟩ :=
  have h := signal_loop_behaviour sampleMainEnv ⟨[.signalNotify], .running⟩ rfl
  have hm := h.2.2.2.2.2 ["-text", "hello"] ⟨":5678", "hello", false, []⟩ rfl rfl
    (by decide) rfl rfl
  ⟨h.1, h.2.1 15 (by decide), h.2.2.1 [15, 1] (by decide),
   h.2.2.2.1 [15] [15, SIGINT] (by decide),
   hm.1 [15, 1] (by decide), hm.2.1 [15] [15] (by decide)⟩

end HttpEcho
